import Mathlib

/-!
NeuralNetMould (ClConvolve): fluent configuration builder.

Shallow embedding of `src/NeuralNetMould.h`.

The C++ class has two `int` fields and two setters that assign one field
through `this` and return `this`.  Objects are mutated in place and handed
around by pointer, so the embedding keeps an explicit memory: a map from
addresses to mould objects.  A member function takes the memory and the
receiver address, and gives back the memory after the call together with the
returned pointer.

`int` values are mathematical integers; no arithmetic is performed by the
class, so nothing can overflow.  The range of a 32-bit `int` is available as
`INT_MIN`, `INT_MAX` and `isInt` for statements that speak about
representable arguments.
-/

namespace ClConvolve

/-- Address of a `NeuralNetMould` object (`NeuralNetMould *`). -/
abbrev Ptr := Nat

/-- The data members of `class NeuralNetMould`, in declaration order. -/
structure NeuralNetMould where
  _numPlanes : Int
  _boardSize : Int
deriving DecidableEq

/-- Memory: the contents found at each address, read as a mould object.
Before a constructor runs these contents are whatever the storage held. -/
abbrev Memory := Ptr → NeuralNetMould

/-- Smallest value of a 32-bit `int`. -/
def INT_MIN : Int := -2147483648

/-- Largest value of a 32-bit `int`. -/
def INT_MAX : Int := 2147483647

/-- Representability of an integer as a 32-bit `int`. -/
def isInt (v : Int) : Prop := INT_MIN ≤ v ∧ v ≤ INT_MAX

instance (v : Int) : Decidable (isInt v) :=
  inferInstanceAs (Decidable (INT_MIN ≤ v ∧ v ≤ INT_MAX))

/-- Assignment through a pointer: `*this = obj`. -/
def store (mem : Memory) (this : Ptr) (obj : NeuralNetMould) : Memory :=
  fun q => if q = this then obj else mem q

set_option linter.dupNamespace false in
/-- Constructor `NeuralNetMould(){ }`: the body is empty and there is no member
initialiser, so the storage at `this` is left exactly as it was. -/
def NeuralNetMould.NeuralNetMould (mem : Memory) (_this : Ptr) : Memory :=
  mem

/-- Setter `NeuralNetMould *planes(int planes)`:
`this->_numPlanes = planes; return this;`. -/
def NeuralNetMould.planes (mem : Memory) (this : Ptr) (planes : Int) : Memory × Ptr :=
  (store mem this { mem this with _numPlanes := planes }, this)

/-- Setter `NeuralNetMould *boardSize(int boardSize)`:
`this->_boardSize = boardSize; return this;`. -/
def NeuralNetMould.boardSize (mem : Memory) (this : Ptr) (boardSize : Int) : Memory × Ptr :=
  (store mem this { mem this with _boardSize := boardSize }, this)

/-- Call chain `this->planes(p)->boardSize(b)`: the second call is made on the
pointer returned by the first, in the memory the first left behind. -/
def planesThenBoardSize (mem : Memory) (this : Ptr) (p b : Int) : Memory × Ptr :=
  let r := NeuralNetMould.planes mem this p
  NeuralNetMould.boardSize r.1 r.2 b

/-- Call chain `this->boardSize(b)->planes(p)`. -/
def boardSizeThenPlanes (mem : Memory) (this : Ptr) (p b : Int) : Memory × Ptr :=
  let r := NeuralNetMould.boardSize mem this b
  NeuralNetMould.planes r.1 r.2 p

/-- Memory in which every address holds the object `obj`. -/
def constMemory (obj : NeuralNetMould) : Memory := fun _ => obj

/-! Helper lemmas -/

theorem store_same (mem : Memory) (this : Ptr) (obj : NeuralNetMould) :
    store mem this obj this = obj := by
  simp [store]

theorem store_other (mem : Memory) (this q : Ptr) (obj : NeuralNetMould)
    (h : q ≠ this) : store mem this obj q = mem q := by
  simp [store, h]

theorem store_store (mem : Memory) (this : Ptr) (a b : NeuralNetMould) :
    store (store mem this a) this b = store mem this b := by
  funext q
  by_cases h : q = this <;> simp [store, h]

/-- Both setters return the receiver pointer. -/
theorem setters_return_this (mem : Memory) (this : Ptr) (v : Int) :
    (NeuralNetMould.planes mem this v).2 = this ∧
    (NeuralNetMould.boardSize mem this v).2 = this :=
  ⟨rfl, rfl⟩

/-- Object at the receiver after `planes`. -/
theorem planes_at_this (mem : Memory) (this : Ptr) (v : Int) :
    (NeuralNetMould.planes mem this v).1 this = ⟨v, (mem this)._boardSize⟩ := by
  simp [NeuralNetMould.planes, store_same]

/-- Object at the receiver after `boardSize`. -/
theorem boardSize_at_this (mem : Memory) (this : Ptr) (v : Int) :
    (NeuralNetMould.boardSize mem this v).1 this = ⟨(mem this)._numPlanes, v⟩ := by
  simp [NeuralNetMould.boardSize, store_same]

/-- Whole memory after `planes` then `boardSize` on the returned pointer. -/
theorem planesThenBoardSize_eq (mem : Memory) (this : Ptr) (p b : Int) :
    planesThenBoardSize mem this p b = (store mem this ⟨p, b⟩, this) := by
  simp [planesThenBoardSize, NeuralNetMould.planes, NeuralNetMould.boardSize, store_store,
    store_same]

/-- Whole memory after `boardSize` then `planes` on the returned pointer. -/
theorem boardSizeThenPlanes_eq (mem : Memory) (this : Ptr) (p b : Int) :
    boardSizeThenPlanes mem this p b = (store mem this ⟨p, b⟩, this) := by
  simp [boardSizeThenPlanes, NeuralNetMould.planes, NeuralNetMould.boardSize, store_store,
    store_same]

/-- The setters keep representable contents representable. -/
theorem setters_preserve_isInt (mem : Memory) (this : Ptr) (v : Int)
    (hv : isInt v) (hp : isInt (mem this)._numPlanes) (hb : isInt (mem this)._boardSize) :
    isInt ((NeuralNetMould.planes mem this v).1 this)._numPlanes ∧
    isInt ((NeuralNetMould.planes mem this v).1 this)._boardSize ∧
    isInt ((NeuralNetMould.boardSize mem this v).1 this)._numPlanes ∧
    isInt ((NeuralNetMould.boardSize mem this v).1 this)._boardSize := by
  simp [NeuralNetMould.planes, NeuralNetMould.boardSize, store_same, hv, hp, hb]

/-! Setter contracts -/

/-- C1: for every memory, receiver and non-negative `p`, after `planes(p)` the
object reached through the returned pointer has `_numPlanes = p`. -/
theorem planes_stores_numPlanes (mem : Memory) (this : Ptr) (p : Int) (_hp : 0 ≤ p) :
    ((NeuralNetMould.planes mem this p).1 (NeuralNetMould.planes mem this p).2)._numPlanes = p := by
  simp [NeuralNetMould.planes, store_same]

/-- Instance of C1 at `p = 3` on a memory filled with `{7, 9}`. -/
theorem planes_stores_numPlanes_witness :
    (0 : Int) ≤ 3 ∧
    ((NeuralNetMould.planes (constMemory ⟨7, 9⟩) 0 3).1
      (NeuralNetMould.planes (constMemory ⟨7, 9⟩) 0 3).2)._numPlanes = 3 :=
  ⟨by decide, planes_stores_numPlanes (constMemory ⟨7, 9⟩) 0 3 (by decide)⟩

/-- C2: for every memory, receiver and non-negative `b`, after `boardSize(b)`
the object reached through the returned pointer has `_boardSize = b`. -/
theorem boardSize_stores_boardSize (mem : Memory) (this : Ptr) (b : Int) (_hb : 0 ≤ b) :
    ((NeuralNetMould.boardSize mem this b).1
      (NeuralNetMould.boardSize mem this b).2)._boardSize = b := by
  simp [NeuralNetMould.boardSize, store_same]

/-- Instance of C2 at `b = 19` on a memory filled with `{7, 9}`. -/
theorem boardSize_stores_boardSize_witness :
    (0 : Int) ≤ 19 ∧
    ((NeuralNetMould.boardSize (constMemory ⟨7, 9⟩) 0 19).1
      (NeuralNetMould.boardSize (constMemory ⟨7, 9⟩) 0 19).2)._boardSize = 19 :=
  ⟨by decide, boardSize_stores_boardSize (constMemory ⟨7, 9⟩) 0 19 (by decide)⟩

/-- C3: chaining.  `planes(p)` followed by `boardSize(b)` on the returned
pointer leaves one object, at the receiver address, with plane count `p` and
board size `b`; both calls return the receiver itself, so the record returned
by each call is the post-call state of the receiver; every other address
keeps its contents.  In particular `planes(3)` then `boardSize(19)` gives `{3, 19}`. -/
theorem chaining_same_record (mem : Memory) (this : Ptr) (p b : Int) :
    (NeuralNetMould.planes mem this p).2 = this ∧
    (planesThenBoardSize mem this p b).2 = this ∧
    (NeuralNetMould.planes mem this p).1 (NeuralNetMould.planes mem this p).2
      = (NeuralNetMould.planes mem this p).1 this ∧
    (planesThenBoardSize mem this p b).1 (planesThenBoardSize mem this p b).2
      = (planesThenBoardSize mem this p b).1 this ∧
    (planesThenBoardSize mem this p b).1 this = ⟨p, b⟩ ∧
    (∀ q, (planesThenBoardSize mem this p b).1 q = if q = this then ⟨p, b⟩ else mem q) ∧
    (planesThenBoardSize mem this 3 19).1 (planesThenBoardSize mem this 3 19).2
      = { _numPlanes := 3, _boardSize := 19 } := by
  simp only [planesThenBoardSize_eq, store_same]
  exact ⟨rfl, trivial, rfl, trivial, trivial, fun _ => rfl, trivial⟩

/-- C4: order independence.  `boardSize(b)` then `planes(p)` leaves exactly the
same memory (and returns the same pointer) as `planes(p)` then
`boardSize(b)`. -/
theorem setters_commute (mem : Memory) (this : Ptr) (p b : Int) :
    boardSizeThenPlanes mem this p b = planesThenBoardSize mem this p b := by
  rw [boardSizeThenPlanes_eq, planesThenBoardSize_eq]

/-- C5: the setters always return and check nothing.  For every memory,
receiver and argument representable as an `int` (zero and negative values
included), each call produces a result, the returned pointer is the receiver,
and the written field holds the argument unchanged. -/
theorem setters_never_fail (mem : Memory) (this : Ptr) (v : Int) (_hv : isInt v) :
    (∃ mem1, NeuralNetMould.planes mem this v = (mem1, this) ∧ (mem1 this)._numPlanes = v) ∧
    (∃ mem2, NeuralNetMould.boardSize mem this v = (mem2, this) ∧
      (mem2 this)._boardSize = v) := by
  refine ⟨⟨_, rfl, ?_⟩, ⟨_, rfl, ?_⟩⟩ <;> simp [store_same]

/-- Instance of C5 at the most negative `int`, on a memory filled with
`{7, 9}`. -/
theorem setters_never_fail_witness :
    isInt (-2147483648) ∧
    (∃ mem1, NeuralNetMould.planes (constMemory ⟨7, 9⟩) 5 (-2147483648) = (mem1, 5) ∧
      (mem1 5)._numPlanes = -2147483648) ∧
    (∃ mem2, NeuralNetMould.boardSize (constMemory ⟨7, 9⟩) 5 (-2147483648) = (mem2, 5) ∧
      (mem2 5)._boardSize = -2147483648) :=
  ⟨by decide, setters_never_fail (constMemory ⟨7, 9⟩) 5 (-2147483648) (by decide)⟩

/-- C6: the constructor assigns no default.  It leaves the memory untouched,
so a freshly constructed builder can hold any pair of values `a`, `b`; no
constant `c` is the value of `_numPlanes` (or of `_boardSize`) in every fresh
builder, and this stays so for `_boardSize` after only `planes` was called and
for `_numPlanes` after only `boardSize` was called. -/
theorem constructor_assigns_no_default (this : Ptr) (a b v : Int) :
    (∀ mem, NeuralNetMould.NeuralNetMould mem this = mem) ∧
    (∃ mem, NeuralNetMould.NeuralNetMould mem this this = ⟨a, b⟩) ∧
    (¬ ∃ c, ∀ mem, (NeuralNetMould.NeuralNetMould mem this this)._numPlanes = c) ∧
    (¬ ∃ c, ∀ mem, (NeuralNetMould.NeuralNetMould mem this this)._boardSize = c) ∧
    (∃ mem, ((NeuralNetMould.planes (NeuralNetMould.NeuralNetMould mem this) this v).1
      this)._boardSize = b) ∧
    (¬ ∃ c, ∀ mem, ((NeuralNetMould.planes (NeuralNetMould.NeuralNetMould mem this) this v).1
      this)._boardSize = c) ∧
    (∃ mem, ((NeuralNetMould.boardSize (NeuralNetMould.NeuralNetMould mem this) this v).1
      this)._numPlanes = a) ∧
    (¬ ∃ c, ∀ mem, ((NeuralNetMould.boardSize (NeuralNetMould.NeuralNetMould mem this) this v).1
      this)._numPlanes = c) := by
  refine ⟨fun _ => rfl, ⟨constMemory ⟨a, b⟩, rfl⟩, ?_, ?_, ⟨constMemory ⟨a, b⟩, ?_⟩, ?_,
    ⟨constMemory ⟨a, b⟩, ?_⟩, ?_⟩
  · rintro ⟨c, hc⟩
    have h0 := hc (constMemory ⟨0, 0⟩)
    have h1 := hc (constMemory ⟨1, 1⟩)
    simp [NeuralNetMould.NeuralNetMould, constMemory] at h0 h1
    omega
  · rintro ⟨c, hc⟩
    have h0 := hc (constMemory ⟨0, 0⟩)
    have h1 := hc (constMemory ⟨1, 1⟩)
    simp [NeuralNetMould.NeuralNetMould, constMemory] at h0 h1
    omega
  · simp [NeuralNetMould.NeuralNetMould, planes_at_this, constMemory]
  · rintro ⟨c, hc⟩
    have h0 := hc (constMemory ⟨0, 0⟩)
    have h1 := hc (constMemory ⟨1, 1⟩)
    simp [NeuralNetMould.NeuralNetMould, planes_at_this, constMemory] at h0 h1
    omega
  · simp [NeuralNetMould.NeuralNetMould, boardSize_at_this, constMemory]
  · rintro ⟨c, hc⟩
    have h0 := hc (constMemory ⟨0, 0⟩)
    have h1 := hc (constMemory ⟨1, 1⟩)
    simp [NeuralNetMould.NeuralNetMould, boardSize_at_this, constMemory] at h0 h1
    omega

/-- C7: frame.  `planes(v)` leaves `_boardSize` of the receiver as it was and
`boardSize(v)` leaves `_numPlanes` of the receiver as it was; each setter
changes only its own field of the receiver and nothing at any other
address. -/
theorem setters_frame (mem : Memory) (this : Ptr) (v : Int) :
    ((NeuralNetMould.planes mem this v).1 this)._boardSize = (mem this)._boardSize ∧
    ((NeuralNetMould.boardSize mem this v).1 this)._numPlanes = (mem this)._numPlanes ∧
    (∀ q, (NeuralNetMould.planes mem this v).1 q =
      if q = this then ⟨v, (mem this)._boardSize⟩ else mem q) ∧
    (∀ q, (NeuralNetMould.boardSize mem this v).1 q =
      if q = this then ⟨(mem this)._numPlanes, v⟩ else mem q) := by
  refine ⟨?_, ?_, fun _ => rfl, fun _ => rfl⟩
  · rw [planes_at_this]
  · rw [boardSize_at_this]

/-- C8: initial-state independence.  For any two memories and receivers, the
builder obtained by applying `planes(p)` and `boardSize(b)` in either order is
the same object `{p, b}`: the four combinations of starting state and call
order agree. -/
theorem final_state_independent_of_start (mem1 mem2 : Memory) (this1 this2 : Ptr) (p b : Int) :
    (planesThenBoardSize mem1 this1 p b).1 this1 = ⟨p, b⟩ ∧
    (planesThenBoardSize mem1 this1 p b).1 this1
      = (planesThenBoardSize mem2 this2 p b).1 this2 ∧
    (planesThenBoardSize mem1 this1 p b).1 this1
      = (boardSizeThenPlanes mem2 this2 p b).1 this2 ∧
    (boardSizeThenPlanes mem1 this1 p b).1 this1
      = (planesThenBoardSize mem2 this2 p b).1 this2 ∧
    (boardSizeThenPlanes mem1 this1 p b).1 this1
      = (boardSizeThenPlanes mem2 this2 p b).1 this2 := by
  simp [planesThenBoardSize_eq, boardSizeThenPlanes_eq, store_same]

/-- C9: last write wins.  `planes(p1)` then `planes(p2)` on the returned
pointer gives the same memory and pointer as `planes(p2)` alone, likewise for
`boardSize`; calling a setter twice with one argument equals calling it
once. -/
theorem last_write_wins (mem : Memory) (this : Ptr) (v1 v2 : Int) :
    NeuralNetMould.planes (NeuralNetMould.planes mem this v1).1
      (NeuralNetMould.planes mem this v1).2 v2 = NeuralNetMould.planes mem this v2 ∧
    NeuralNetMould.boardSize (NeuralNetMould.boardSize mem this v1).1
      (NeuralNetMould.boardSize mem this v1).2 v2 = NeuralNetMould.boardSize mem this v2 ∧
    NeuralNetMould.planes (NeuralNetMould.planes mem this v1).1
      (NeuralNetMould.planes mem this v1).2 v1 = NeuralNetMould.planes mem this v1 ∧
    NeuralNetMould.boardSize (NeuralNetMould.boardSize mem this v1).1
      (NeuralNetMould.boardSize mem this v1).2 v1 = NeuralNetMould.boardSize mem this v1 := by
  simp [NeuralNetMould.planes, NeuralNetMould.boardSize, store_store, store_same]

end ClConvolve
